import Mathlib

/-!
Verification of the dispatch/scheduling engine of an SMS gateway.

The development shallowly embeds the three source modules:
  storage.js    (AppStorage): queue/log tables with check-then-insert dedup,
  dispatcher.js (AppDispatcher): base/Terminal/Activity dispatchers,
and proves the documented scheduling, retry, dedup, ordering, selection,
address-gate and fan-out properties against the embedded code.

Database rows become Lean structures; the Sequelize stores become explicit
lists of rows threaded through each operation; asynchronous callbacks become
return values (a Bool records whether the callback was invoked); Math.random
becomes an explicit rational draw in [0, 1).
-/

namespace SmsGateway

/-! ## Activity kind and priority constants (storage.js) -/

def ACTIVITY_CALL : Nat := 1
def ACTIVITY_RING : Nat := 2
def ACTIVITY_SMS : Nat := 3
def ACTIVITY_INBOX : Nat := 4
def ACTIVITY_USSD : Nat := 5
def ACTIVITY_CUSD : Nat := 6

def PRIORITY_ABOVE : Nat := 10
def PRIORITY_NORMAL : Nat := 20
def PRIORITY_BELOW : Nat := 50

/-! ## Data model

A GwQueue row as persisted by Sequelize.  The processed flag is stored as
0/1 (the code writes processed: 0 and processed: 1 literally), status as
0/1, retry as a nullable integer, time as epoch milliseconds.  The veto
field models the in-memory flag a plugin may set on the object during
fan-out; it is not a persisted column but lives on the same JS object. -/

structure GwQueue where
  id : Nat
  imsi : String
  type : Nat
  hash : String
  address : String
  data : String
  priority : Nat
  processed : Nat
  status : Nat
  retry : Option Nat
  time : Nat
  veto : Bool
deriving DecidableEq, Repr

/-- A GwLog row (outcome log), keyed by (imsi, hash, type). -/
structure GwLog where
  imsi : String
  hash : String
  type : Nat
  address : String
  data : String
  status : Nat
  time : Nat
deriving DecidableEq, Repr

/-! ## AppStorage.saveQueue (storage.js lines 62-87)

The JS code counts rows matching {imsi: origin, hash: queue.hash}; when the
count is 0 it fills in imsi/processed/status/priority/time defaults and
creates the row, invoking the callback with the created row; in every other
outcome (duplicate found, create rejected, count rejected) the callback is
invoked with no argument.  createOk models whether the create call resolves;
newId and now stand for the database-assigned id and Date.now(). -/

structure QueueInput where
  hash : String
  type : Nat
  address : String
  data : String
  priority : Nat
  time : Option Nat
deriving DecidableEq, Repr

structure SaveQueueResult where
  store : List GwQueue
  cbResult : Option GwQueue
  cbCalled : Bool
deriving DecidableEq, Repr

def countQueue (store : List GwQueue) (origin hash : String) : Nat :=
  (store.filter (fun q => decide (q.imsi = origin ∧ q.hash = hash))).length

def saveQueue (store : List GwQueue) (origin : String) (queue : QueueInput)
    (newId now : Nat) (createOk : Bool) : SaveQueueResult :=
  if countQueue store origin queue.hash = 0 then
    if createOk then
      let row : GwQueue :=
        { id := newId, imsi := origin, type := queue.type, hash := queue.hash,
          address := queue.address, data := queue.data,
          priority := if queue.priority = 0 then PRIORITY_NORMAL else queue.priority,
          processed := 0, status := 0, retry := none,
          time := queue.time.getD now, veto := false }
      ⟨store ++ [row], some row, true⟩
    else
      ⟨store, none, true⟩
  else
    ⟨store, none, true⟩

/-! ## AppStorage.saveLog (storage.js lines 89-109)

Counts rows matching {imsi, hash: log.hash, type: log.type}; only when the
count is 0 does it create the row and (then) invoke done; when a row with
the same key already exists nothing happens and done is never invoked.
The log argument is the updated GwQueue row passed in by
Terminal.update. -/

structure SaveLogResult where
  store : List GwLog
  doneCalled : Bool
deriving DecidableEq, Repr

def countLog (store : List GwLog) (origin hash : String) (ty : Nat) : Nat :=
  (store.filter (fun r => decide (r.imsi = origin ∧ r.hash = hash ∧ r.type = ty))).length

def saveLog (store : List GwLog) (origin : String) (log : GwQueue) : SaveLogResult :=
  if countLog store origin log.hash log.type = 0 then
    ⟨store ++ [⟨origin, log.hash, log.type, log.address, log.data, log.status, log.time⟩], true⟩
  else
    ⟨store, false⟩

/-- Dedup invariant: at most one row per (imsi, hash) key. -/
def dedupInv (store : List GwQueue) : Prop :=
  ∀ o h, countQueue store o h ≤ 1

theorem countQueue_append (s t : List GwQueue) (o h : String) :
    countQueue (s ++ t) o h = countQueue s o h + countQueue t o h := by
  simp [countQueue, List.filter_append]

theorem countQueue_eq_zero_iff (store : List GwQueue) (o h : String) :
    countQueue store o h = 0 ↔ ∀ r ∈ store, ¬(r.imsi = o ∧ r.hash = h) := by
  simp [countQueue, List.length_eq_zero, List.filter_eq_nil_iff]

theorem countQueue_singleton (r : GwQueue) (o h : String) :
    countQueue [r] o h = if r.imsi = o ∧ r.hash = h then 1 else 0 := by
  by_cases hm : r.imsi = o ∧ r.hash = h <;> simp [countQueue, hm]

/-- C2: when a row with the same (imsi = channelId, hash = fingerprint) key
already exists, saveQueue leaves the store unchanged and invokes the
callback with no new-row result; and saveQueue preserves the at-most-one-
row-per-key invariant in every outcome. -/
theorem saveQueue_dedup :
    (∀ store origin queue newId now createOk,
      (∃ r ∈ store, r.imsi = origin ∧ r.hash = queue.hash) →
        (saveQueue store origin queue newId now createOk).store = store ∧
        (saveQueue store origin queue newId now createOk).cbResult = none ∧
        (saveQueue store origin queue newId now createOk).cbCalled = true) ∧
    (∀ store origin queue newId now createOk, dedupInv store →
        dedupInv (saveQueue store origin queue newId now createOk).store) := by
  constructor
  · intro store origin queue newId now createOk hex
    have hcount : countQueue store origin queue.hash ≠ 0 := by
      rw [Ne, countQueue_eq_zero_iff]
      push_neg
      obtain ⟨r, hr, hk⟩ := hex
      exact ⟨r, hr, hk⟩
    simp [saveQueue, hcount]
  · intro store origin queue newId now createOk hinv
    by_cases hcount : countQueue store origin queue.hash = 0
    · by_cases hok : createOk = true
      · intro o h
        simp only [saveQueue, hcount, if_true, hok, if_pos]
        rw [countQueue_append, countQueue_singleton]
        by_cases hm : origin = o ∧ queue.hash = h
        · obtain ⟨ho, hh⟩ := hm
          subst ho hh
          simp [hcount]
        · have : ¬((origin = o ∧ queue.hash = h)) := hm
          simp only [this, if_neg, not_false_iff]
          have := hinv o h
          omega
      · have hok2 : createOk = false := by
          cases createOk
          · rfl
          · exact absurd rfl hok
        subst hok2
        simpa [saveQueue, hcount] using hinv
    · simpa [saveQueue, hcount] using hinv

/-- Concrete row and insert payload sharing the (imsi, hash) key, for the C2
witness. -/
def wQrow : GwQueue :=
  { id := 1, imsi := "890123", type := ACTIVITY_SMS, hash := "abc123",
    address := "08123456", data := "hello", priority := PRIORITY_NORMAL,
    processed := 0, status := 0, retry := none, time := 500, veto := false }

def wQin : QueueInput :=
  { hash := "abc123", type := ACTIVITY_SMS, address := "08123456",
    data := "hello again", priority := 0, time := none }

/-- C2 witness: a concrete duplicate insert is a no-op with callback result
none, and the dedup invariant is preserved on a concrete store. -/
theorem saveQueue_dedup_witness :
    (saveQueue [wQrow] "890123" wQin 7 1000 true).store = [wQrow] ∧
    (saveQueue [wQrow] "890123" wQin 7 1000 true).cbResult = none ∧
    (saveQueue [wQrow] "890123" wQin 7 1000 true).cbCalled = true := by
  exact saveQueue_dedup.1 [wQrow] "890123" wQin 7 1000 true
    ⟨wQrow, by decide, by decide⟩

theorem countLog_eq_zero_iff (store : List GwLog) (o h : String) (ty : Nat) :
    countLog store o h ty = 0 ↔ ∀ r ∈ store, ¬(r.imsi = o ∧ r.hash = h ∧ r.type = ty) := by
  simp [countLog, List.length_eq_zero, List.filter_eq_nil_iff]

/-- C10: saveLog inserts an outcome-log row only when no row with the same
(imsi, hash, type) key exists; when such a row exists the store is unchanged
and done is never invoked; saveQueue by contrast invokes its callback in
every outcome. -/
theorem saveLog_insert_once :
    (∀ store origin log,
      (∃ r ∈ store, r.imsi = origin ∧ r.hash = log.hash ∧ r.type = log.type) →
        (saveLog store origin log).store = store ∧
        (saveLog store origin log).doneCalled = false) ∧
    (∀ store origin log,
      (∀ r ∈ store, ¬(r.imsi = origin ∧ r.hash = log.hash ∧ r.type = log.type)) →
        (saveLog store origin log).store =
          store ++ [⟨origin, log.hash, log.type, log.address, log.data, log.status, log.time⟩] ∧
        (saveLog store origin log).doneCalled = true) ∧
    (∀ store origin queue newId now createOk,
        (saveQueue store origin queue newId now createOk).cbCalled = true) := by
  refine ⟨?_, ?_, ?_⟩
  · intro store origin log hex
    have hcount : countLog store origin log.hash log.type ≠ 0 := by
      rw [Ne, countLog_eq_zero_iff]
      push_neg
      obtain ⟨r, hr, hk⟩ := hex
      exact ⟨r, hr, hk⟩
    simp [saveLog, hcount]
  · intro store origin log hnone
    have hcount : countLog store origin log.hash log.type = 0 :=
      (countLog_eq_zero_iff store origin log.hash log.type).mpr hnone
    simp [saveLog, hcount]
  · intro store origin queue newId now createOk
    simp only [saveQueue]
    split_ifs <;> rfl

/-- Concrete log row matching wQrow, for the C10 witness. -/
def wLrow : GwLog :=
  { imsi := "890123", hash := "abc123", type := ACTIVITY_SMS,
    address := "08123456", data := "hello", status := 1, time := 700 }

/-- C10 witness: a concrete duplicate log insert leaves the store unchanged
with done never invoked, while a fresh one inserts and invokes done. -/
theorem saveLog_insert_once_witness :
    ((saveLog [wLrow] "890123" wQrow).store = [wLrow] ∧
     (saveLog [wLrow] "890123" wQrow).doneCalled = false) ∧
    ((saveLog [] "890123" wQrow).doneCalled = true) := by
  refine ⟨saveLog_insert_once.1 [wLrow] "890123" wQrow ⟨wLrow, by decide, by decide⟩, ?_⟩
  exact (saveLog_insert_once.2.1 [] "890123" wQrow (by intro r hr; cases hr)).2

/-! ## Base Dispatcher (dispatcher.js lines 38-82)

State: count (the dirty counter), queues (the snapshot), loading, loadTime
and reloadInterval.  The staleness test
(Date.now() - loadTime) >= reloadInterval is abstracted into the Boolean
field stale, and the number of getQueues fetches started and not yet
resolved is tracked explicitly in inflight so that concurrency of reloads
is observable.  reload() also calls check(); in the base class check() is
a no-op on this state (the Terminal subclass merely re-emits a state event),
so it does not appear in the transitions. -/

structure DispatchState where
  count : Nat
  queues : List GwQueue
  loading : Bool
  stale : Bool
  inflight : Nat
deriving DecidableEq, Repr

namespace Dispatcher

/-- AppDispatcher.Dispatcher.prototype.reload: this.count++ then check(). -/
def reload (s : DispatchState) : DispatchState :=
  { s with count := s.count + 1 }

/-- AppDispatcher.Dispatcher.prototype.load: when count > 0, synchronously
reset count, clear the snapshot, set loading and start a getQueues fetch. -/
def load (s : DispatchState) : DispatchState :=
  if s.count > 0 then
    { s with count := 0, queues := [], loading := true, inflight := s.inflight + 1 }
  else
    s

/-- Resolution of a getQueues fetch: loading cleared, loadTime refreshed
(stale becomes false), snapshot replaced by the results, then check(). -/
def fetchResolve (s : DispatchState) (results : List GwQueue) : DispatchState :=
  { s with loading := false, stale := false, queues := results,
           inflight := s.inflight - 1 }

/-- AppDispatcher.Dispatcher.prototype.reloadNeeded: when count > 0 or the
snapshot is empty, optionally add a staleness dirty tick (only when
count = 0, the snapshot is stale and not currently loading), then load. -/
def reloadNeeded (s : DispatchState) : DispatchState :=
  if s.count > 0 ∨ (s.count = 0 ∧ s.queues = []) then
    load (if s.count = 0 ∧ s.stale = true ∧ s.loading = false then
            { s with count := s.count + 1 }
          else s)
  else
    s

end Dispatcher

/-- A state with one fetch in flight (loading set, dirty counter already
reset by load), used to exhibit a second concurrent fetch. -/
def midFlight : DispatchState :=
  { count := 0, queues := [], loading := true, stale := false, inflight := 1 }

/-- C4 counterexample: with a fetch in flight (loading = true), a dirty
signal (reload) followed by reloadNeeded starts a second fetch before the
first resolves — the loading flag does not guard load() against concurrent
reloads. -/
theorem load_not_guarded_by_loading_counterexample :
    midFlight.loading = true ∧
    (Dispatcher.reloadNeeded (Dispatcher.reload midFlight)).inflight =
      midFlight.inflight + 1 ∧
    (Dispatcher.reloadNeeded (Dispatcher.reload midFlight)).loading = true := by
  decide

/-- C4 amended: load() is guarded by the dirty counter, not the loading
flag: a load() with count = 0 starts no fetch and changes nothing; a load()
with count > 0 resets the counter, clears the snapshot and marks loading
synchronously, before the fetch resolves; and while a fetch is in flight
with no dirty signal pending, reloadNeeded starts no second fetch because
the loading flag suppresses only the staleness tick. -/
theorem load_guarded_by_dirty_count (s : DispatchState) :
    (s.count = 0 → Dispatcher.load s = s) ∧
    (s.count > 0 → Dispatcher.load s =
      { s with count := 0, queues := [], loading := true,
               inflight := s.inflight + 1 }) ∧
    (s.loading = true → s.count = 0 → Dispatcher.reloadNeeded s = s) := by
  refine ⟨?_, ?_, ?_⟩
  · intro h
    simp [Dispatcher.load, h]
  · intro h
    simp [Dispatcher.load, h]
  · intro hl hc
    by_cases hq : s.queues = []
    · simp [Dispatcher.reloadNeeded, Dispatcher.load, hl, hc, hq]
    · simp [Dispatcher.reloadNeeded, hc, hq]

/-- C4 witness: the amended guard evaluated at the concrete mid-flight
state. -/
theorem load_guarded_by_dirty_count_witness :
    Dispatcher.load midFlight = midFlight ∧
    Dispatcher.reloadNeeded midFlight = midFlight := by
  exact ⟨(load_guarded_by_dirty_count midFlight).1 rfl,
         (load_guarded_by_dirty_count midFlight).2.2 rfl rfl⟩

/-! ## Generic insertion sort

Models the ORDER BY of Sequelize findAll (dispatcher.js lines 124-128 and
211-214) and the in-place Array.prototype.sort of Activity.add (lines
240-242): a stable comparison sort over the row list. -/

def insIns {α : Type} (le : α → α → Bool) (a : α) : List α → List α
  | [] => [a]
  | b :: l => if le a b then a :: b :: l else b :: insIns le a l

def insSort {α : Type} (le : α → α → Bool) : List α → List α
  | [] => []
  | a :: l => insIns le a (insSort le l)

theorem mem_insIns {α : Type} (le : α → α → Bool) (a x : α) (l : List α) :
    x ∈ insIns le a l ↔ x = a ∨ x ∈ l := by
  induction l with
  | nil => simp [insIns]
  | cons b t ih =>
    by_cases h : le a b = true
    · simp [insIns, h]
    · simp only [insIns, h, if_neg, Bool.not_eq_true, List.mem_cons, ih]
      tauto

theorem mem_insSort {α : Type} (le : α → α → Bool) (x : α) (l : List α) :
    x ∈ insSort le l ↔ x ∈ l := by
  induction l with
  | nil => simp [insSort]
  | cons b t ih => simp [insSort, mem_insIns, ih]

theorem length_insIns {α : Type} (le : α → α → Bool) (a : α) (l : List α) :
    (insIns le a l).length = l.length + 1 := by
  induction l with
  | nil => simp [insIns]
  | cons b t ih =>
    by_cases h : le a b = true <;> simp [insIns, h, ih]

theorem length_insSort {α : Type} (le : α → α → Bool) (l : List α) :
    (insSort le l).length = l.length := by
  induction l with
  | nil => simp [insSort]
  | cons b t ih => simp [insSort, length_insIns, ih]

theorem pairwise_insIns {α : Type} (le : α → α → Bool)
    (htot : ∀ a b, le a b = true ∨ le b a = true)
    (htrans : ∀ a b c, le a b = true → le b c = true → le a c = true)
    (a : α) (l : List α) (hl : l.Pairwise (fun x y => le x y = true)) :
    (insIns le a l).Pairwise (fun x y => le x y = true) := by
  induction l with
  | nil => simp [insIns]
  | cons b t ih =>
    rcases List.pairwise_cons.mp hl with ⟨hb, ht⟩
    by_cases h : le a b = true
    · rw [insIns, if_pos h]
      refine List.pairwise_cons.mpr ⟨?_, hl⟩
      intro y hy
      rcases List.mem_cons.mp hy with rfl | hyt
      · exact h
      · exact htrans a b y h (hb y hyt)
    · have hba : le b a = true := (htot a b).resolve_left h
      rw [insIns, if_neg h]
      refine List.pairwise_cons.mpr ⟨?_, ih ht⟩
      intro y hy
      rcases (mem_insIns le a y t).mp hy with rfl | hyt
      · exact hba
      · exact hb y hyt

theorem pairwise_insSort {α : Type} (le : α → α → Bool)
    (htot : ∀ a b, le a b = true ∨ le b a = true)
    (htrans : ∀ a b c, le a b = true → le b c = true → le a c = true)
    (l : List α) :
    (insSort le l).Pairwise (fun x y => le x y = true) := by
  induction l with
  | nil => simp [insSort]
  | cons b t ih => exact pairwise_insIns le htot htrans b (insSort le t) ih

/-! ## Terminal Dispatcher (dispatcher.js lines 86-193) -/

/-- The SQL retry <= maxRetry comparison of the WHERE clause: a NULL retry
compares as false in SQL, so rows whose retry was never set fall out of the
processed branch of the filter. -/
def retryLe (r : Option Nat) (n : Nat) : Bool :=
  match r with
  | none => false
  | some v => decide (v ≤ n)

/-- WHERE clause of Terminal.getQueues (lines 105-123): imsi matches, and
either unprocessed with kind in {CALL, SMS, USSD}, or processed with
retry <= maxRetry, kind SMS and status 0. -/
def terminalWhere (imsi : String) (maxRetry : Nat) (q : GwQueue) : Bool :=
  decide (q.imsi = imsi) &&
    (decide (q.processed = 0 ∧
        (q.type = ACTIVITY_CALL ∨ q.type = ACTIVITY_SMS ∨ q.type = ACTIVITY_USSD)) ||
     (decide (q.processed = 1) && retryLe q.retry maxRetry &&
      decide (q.type = ACTIVITY_SMS ∧ q.status = 0)))

/-- ORDER BY (priority ASC, processed ASC, time ASC) as a Boolean
lexicographic comparison. -/
def queueLe (a b : GwQueue) : Bool :=
  decide (a.priority < b.priority ∨
    (a.priority = b.priority ∧
      (a.processed < b.processed ∨
        (a.processed = b.processed ∧ a.time ≤ b.time))))

/-- Terminal.getQueues: the filtered rows of the table, ordered by
(priority ASC, processed ASC, time ASC). -/
def terminalGetQueues (table : List GwQueue) (imsi : String) (maxRetry : Nat) :
    List GwQueue :=
  insSort queueLe (table.filter (terminalWhere imsi maxRetry))

/-- JS truthy retry increment of Terminal.update:
GwQueue.retry ? GwQueue.retry + 1 : 1 (null and 0 are both falsy). -/
def nextRetry (r : Option Nat) : Nat :=
  match r with
  | none => 1
  | some v => if v = 0 then 1 else v + 1

/-- Terminal.update (lines 139-152), row mutation part: always sets
processed, on success derives status from the reply-success flag of the
channel, on failure of an SMS increments retry.  The saveLog call it then
performs for non-USSD kinds is modelled separately by saveLog. -/
def update (replySuccess : Bool) (q : GwQueue) (success : Bool) : GwQueue :=
  let q1 := { q with processed := 1 }
  let q2 := if success then { q1 with status := if replySuccess then 1 else 0 } else q1
  if success = false ∧ q.type = ACTIVITY_SMS then
    { q2 with retry := some (nextRetry q.retry) }
  else
    q2

/-- n consecutive failed attempts: each rejection is caught and routed to
update with success = false. -/
def iterFail (replySuccess : Bool) (q : GwQueue) : Nat → GwQueue
  | 0 => q
  | n + 1 => iterFail replySuccess (update replySuccess q false) n

/-- Channel answer to a status query (term.query resolution value). -/
structure QueryStatus where
  success : Bool
  hash : String
  status : Bool
deriving DecidableEq, Repr

/-- Observable steps taken by Terminal.process on one item. -/
inductive ProcessStep where
  | dial
  | queryStatus (hash : String)
  | markStatusSuccess
  | sendMessage
  | ussd
deriving DecidableEq, Repr

/-- Terminal.process (lines 154-193) as the sequence of channel operations
it performs, given the resolution value of the status query (only consulted
on the SMS retry path).  A retry item (retry set) first queries the channel;
on success with matching hash and a success status it only updates the row
status; otherwise it resends. -/
def processTrace (q : GwQueue) (st : QueryStatus) : List ProcessStep :=
  if q.type = ACTIVITY_CALL then [.dial]
  else if q.type = ACTIVITY_SMS then
    if q.retry ≠ none then
      .queryStatus q.hash ::
        (if st.success = true ∧ st.hash = q.hash then
          (if st.status = true then [.markStatusSuccess] else [.sendMessage])
        else [.sendMessage])
    else [.sendMessage]
  else if q.type = ACTIVITY_USSD then [.ussd]
  else []

theorem queueLe_total (a b : GwQueue) : queueLe a b = true ∨ queueLe b a = true := by
  simp only [queueLe, decide_eq_true_eq]
  omega

theorem queueLe_trans (a b c : GwQueue) :
    queueLe a b = true → queueLe b c = true → queueLe a c = true := by
  simp only [queueLe, decide_eq_true_eq]
  omega

/-- Three unprocessed SMS rows for terminal T1 with equal timestamps and
priorities 50, 10, 20 (in table order), for the C5 drain-order example. -/
def exQ50 : GwQueue :=
  { id := 1, imsi := "T1", type := ACTIVITY_SMS, hash := "h50", address := "0811",
    data := "m50", priority := PRIORITY_BELOW, processed := 0, status := 0,
    retry := none, time := 100, veto := false }

def exQ10 : GwQueue :=
  { id := 2, imsi := "T1", type := ACTIVITY_SMS, hash := "h10", address := "0812",
    data := "m10", priority := PRIORITY_ABOVE, processed := 0, status := 0,
    retry := none, time := 100, veto := false }

def exQ20 : GwQueue :=
  { id := 3, imsi := "T1", type := ACTIVITY_SMS, hash := "h20", address := "0813",
    data := "m20", priority := PRIORITY_NORMAL, processed := 0, status := 0,
    retry := none, time := 100, veto := false }

def exTable : List GwQueue := [exQ50, exQ10, exQ20]

/-- C5: the Terminal snapshot contains exactly the table rows passing the
channel filter (imsi matches, and either unprocessed with kind in
{Call, SMS, USSD}, or processed with retry at most maxRetry, kind SMS and
status failed), is ordered by (priority ASC, processed ASC, time ASC), and
for equal timestamps with priorities [50, 10, 20] the drain order is
[10, 20, 50]. -/
theorem terminal_snapshot_filter_order :
    (∀ (table : List GwQueue) (imsi : String) (maxRetry : Nat) (q : GwQueue),
        q ∈ terminalGetQueues table imsi maxRetry ↔
          q ∈ table ∧ terminalWhere imsi maxRetry q = true) ∧
    (∀ (table : List GwQueue) (imsi : String) (maxRetry : Nat),
        (terminalGetQueues table imsi maxRetry).Pairwise
          (fun a b => queueLe a b = true)) ∧
    terminalGetQueues exTable "T1" 3 = [exQ10, exQ20, exQ50] := by
  refine ⟨?_, ?_, by decide⟩
  · intro table imsi maxRetry q
    rw [terminalGetQueues, mem_insSort, List.mem_filter]
  · intro table imsi maxRetry
    exact pairwise_insSort queueLe queueLe_total queueLe_trans _

/-- C5 witness: the filter characterization evaluated at a concrete row. -/
theorem terminal_snapshot_filter_order_witness :
    exQ10 ∈ terminalGetQueues exTable "T1" 3 := by
  exact (terminal_snapshot_filter_order.1 exTable "T1" 3 exQ10).mpr
    ⟨by decide, by decide⟩

/-- Fresh SMS work item exactly as inserted by saveQueue: unprocessed,
status 0, retry null. -/
def q0 : GwQueue :=
  { id := 9, imsi := "T1", type := ACTIVITY_SMS, hash := "hq0", address := "0811",
    data := "m", priority := PRIORITY_NORMAL, processed := 0, status := 0,
    retry := none, time := 100, veto := false }

/-- C1 counterexample: after maxRetry + 1 = 4 consecutive failures the item
ends with processed 1 and status 0 as claimed, but its retry counter is 4,
not maxRetry = 3 — refuting the claimed final retryCount = maxRetry. -/
theorem retry_cap_counterexample :
    (iterFail true q0 4).processed = 1 ∧
    (iterFail true q0 4).status = 0 ∧
    (iterFail true q0 4).retry = some 4 ∧
    ¬((iterFail true q0 4).retry = some 3) := by
  decide

/-- C1 amended: an SMS item starting with retry null and status 0, after
failing maxRetry + 1 = 4 consecutive times, ends with processed = 1,
status = 0 (failed) and retryCount = maxRetry + 1 = 4, and is filtered out
of the terminal snapshot (retryCount now exceeds maxRetry). -/
theorem retry_cap_amended (replySuccess : Bool) (q : GwQueue)
    (hty : q.type = ACTIVITY_SMS) (hr : q.retry = none) (hs : q.status = 0) :
    (iterFail replySuccess q 4).processed = 1 ∧
    (iterFail replySuccess q 4).status = 0 ∧
    (iterFail replySuccess q 4).retry = some 4 ∧
    terminalWhere q.imsi 3 (iterFail replySuccess q 4) = false := by
  simp [iterFail, update, hty, hr, hs, nextRetry, terminalWhere, retryLe,
    ACTIVITY_SMS, ACTIVITY_CALL, ACTIVITY_USSD]

/-- C1 witness: the amended retry cap evaluated on the concrete fresh
item. -/
theorem retry_cap_amended_witness :
    (iterFail true q0 4).retry = some 4 ∧
    terminalWhere q0.imsi 3 (iterFail true q0 4) = false := by
  have h := retry_cap_amended true q0 (by decide) (by decide) (by decide)
  exact ⟨h.2.2.1, h.2.2.2⟩

/-- C3: a retry-eligible SMS item (retry set) first issues a status query
for its hash before any send; when the query resolves with success, a
matching hash and a success status the trace is exactly the query followed
by the row-status update and no send occurs; when the query reports the
item still outstanding (status 0) or the query itself fails (success false
or hash mismatch), the message is resent. -/
theorem retry_reconciliation (q : GwQueue) (st : QueryStatus)
    (hty : q.type = ACTIVITY_SMS) (hr : q.retry ≠ none) :
    (processTrace q st).head? = some (.queryStatus q.hash) ∧
    (st.success = true ∧ st.hash = q.hash ∧ st.status = true →
      processTrace q st = [.queryStatus q.hash, .markStatusSuccess] ∧
      ProcessStep.sendMessage ∉ processTrace q st) ∧
    ((st.success = true ∧ st.hash = q.hash ∧ st.status = false) ∨
      ¬(st.success = true ∧ st.hash = q.hash) →
      ProcessStep.sendMessage ∈ processTrace q st) := by
  have hpt : processTrace q st = .queryStatus q.hash ::
      (if st.success = true ∧ st.hash = q.hash then
        (if st.status = true then [.markStatusSuccess] else [.sendMessage])
      else [.sendMessage]) := by
    simp [processTrace, hty, hr, ACTIVITY_CALL, ACTIVITY_SMS]
  refine ⟨by rw [hpt]; rfl, ?_, ?_⟩
  · rintro ⟨hsu, hh, hst⟩
    rw [hpt]
    simp [hsu, hh, hst]
  · intro h
    rw [hpt]
    rcases h with ⟨hsu, hh, hst⟩ | hn
    · simp [hsu, hh, hst]
    · rw [if_neg hn]
      simp

/-- Retry-eligible SMS item and a matching successful status answer, for
the C3 witness. -/
def qRetry : GwQueue :=
  { id := 12, imsi := "T1", type := ACTIVITY_SMS, hash := "hr1", address := "0815",
    data := "mr", priority := PRIORITY_NORMAL, processed := 1, status := 0,
    retry := some 1, time := 100, veto := false }

def stGood : QueryStatus := { success := true, hash := "hr1", status := true }

/-- C3 witness: the reconciliation path evaluated on a concrete retry item
whose status query reports a matching success. -/
theorem retry_reconciliation_witness :
    processTrace qRetry stGood =
      [.queryStatus qRetry.hash, .markStatusSuccess] ∧
    ProcessStep.sendMessage ∉ processTrace qRetry stGood := by
  exact (retry_reconciliation qRetry stGood (by decide) (by decide)).2.1
    ⟨rfl, rfl, rfl⟩

/-! ## Activity Dispatcher (dispatcher.js lines 197-368) -/

/-- Channel options read by the dispatcher (term.options).  group is
nullable; operators is the operator allow-list. -/
structure TermOptions where
  priority : Nat
  group : Option String
  allowCall : Bool
  sendMessage : Bool
  receiveMessage : Bool
  operators : List String
deriving DecidableEq, Repr

/-- Read-only channel view: name (the imsi), connected flag and options. -/
structure Terminal where
  name : String
  connected : Bool
  options : TermOptions
deriving DecidableEq, Repr

/-- Eligibility filter of Activity.getTerminal (lines 249-265), one continue
test per clause.  getOp models this.appterm.getOperator, returning none for
a falsy (failed) lookup. -/
def eligible (getOp : String → Option String) (ty : Nat) (address : String)
    (group : Option String) (t : Terminal) : Bool :=
  if t.connected = false then false
  else if group.isSome ∧ t.options.group ≠ group then false
  else if ty = ACTIVITY_CALL ∧ t.options.allowCall = false then false
  else if ty = ACTIVITY_SMS ∧ t.options.sendMessage = false then false
  else if t.options.operators ≠ [] ∧ ty ≠ ACTIVITY_USSD then
    match getOp address with
    | none => false
    | some op => decide (op ∈ t.options.operators)
  else true

/-- Activity.getTerminal: the connected, capability- and operator-eligible
channels, in registry order. -/
def getTerminal (terminals : List Terminal) (getOp : String → Option String)
    (ty : Nat) (address : String) (group : Option String) : List Terminal :=
  terminals.filter (eligible getOp ty address group)

/-- Priority comparison used by the terminals.sort of Activity.add
(comparator a.options.priority - b.options.priority). -/
def termLe (a b : Terminal) : Bool :=
  decide (a.options.priority ≤ b.options.priority)

def sortByPriority (ts : List Terminal) : List Terminal :=
  insSort termLe ts

/-- Index selection of Activity.add:
Math.floor(Math.random() * terminals.length) with the random draw r in
[0, 1) made explicit as a rational. -/
def selIdx (r : ℚ) (n : Nat) : Nat :=
  (Rat.floor (r * n)).toNat

/-- Activity.add (lines 232-247), reduced to the channel choice: no channel
when none is eligible; the single eligible channel when there is exactly
one; otherwise the channels are sorted ascending by priority and a uniform
random index over the whole eligible set picks the target of addQueue. -/
def addChosen (terminals : List Terminal) (getOp : String → Option String)
    (ty : Nat) (address : String) (group : Option String) (r : ℚ) :
    Option Terminal :=
  let ts := getTerminal terminals getOp ty address group
  if ts.length = 0 then none
  else if ts.length = 1 then ts[0]?
  else (sortByPriority ts)[selIdx r ts.length]?

/-- Activity configuration consumed by addressAllowed: blacklist and
premium length; a premiumlen of 0 models the JS falsy default to 5. -/
structure ActivityConfig where
  blacklists : List String
  premiumlen : Nat
deriving DecidableEq, Repr

def effPremiumlen (cfg : ActivityConfig) : Nat :=
  if cfg.premiumlen = 0 then 5 else cfg.premiumlen

/-- Digit run with at most one decimal point, tracking whether a digit has
been seen. -/
def digitsFrac : List Char → Bool → Bool → Bool
  | [], seenDigit, _ => seenDigit
  | c :: cs, seenDigit, seenDot =>
    if c.isDigit then digitsFrac cs true seenDot
    else if c = '.' ∧ seenDot = false then digitsFrac cs seenDigit true
    else false

/-- Optionally signed decimal numeral. -/
def decimalNumeral : List Char → Bool
  | '+' :: cs => digitsFrac cs false false
  | '-' :: cs => digitsFrac cs false false
  | cs => digitsFrac cs false false

/-- Leading and trailing whitespace removal, as Number coercion does. -/
def trimChars (cs : List Char) : List Char :=
  ((cs.dropWhile (fun c => c.isWhitespace)).reverse.dropWhile
    (fun c => c.isWhitespace)).reverse

/-- Model of the JS isNaN(string) test on an address: Number(s) trims
whitespace, coerces the empty remainder to 0, and otherwise parses an
optionally signed decimal numeral (the exponent/hex forms JS also accepts
never arise for addresses). -/
def isJsNumeric (s : String) : Bool :=
  (trimChars s.data).isEmpty || decimalNumeral (trimChars s.data)

def jsIsNaN (s : String) : Bool :=
  !(isJsNumeric s)

/-- Activity.addressAllowed (lines 350-368): a falsy (empty) address falls
through returning undefined (falsy); otherwise non-numeric, premium-length
and blacklisted addresses are rejected and anything else is allowed. -/
def addressAllowed (cfg : ActivityConfig) (address : String) : Bool :=
  if address = "" then false
  else if jsIsNaN address = true then false
  else if address.length ≤ effPremiumlen cfg then false
  else if address ∈ cfg.blacklists then false
  else true

/-- Remote socket-sink consumer: id and group. -/
structure Socket where
  id : String
  group : Option String
deriving DecidableEq, Repr

/-- Handler plugin consumer: id, optional group scope, and its synchronous
handle function, which may mutate the item (for example set veto). -/
structure Plugin where
  pid : String
  group : Option String
  handle : GwQueue → GwQueue

/-- Typed notification emitted to a socket-sink. -/
inductive Notif where
  | ring (hash address : String) (time : Nat)
  | message (hash address data : String) (time : Nat)
  | ussd (hash address data : String) (time : Nat)
deriving DecidableEq, Repr

/-- Kind-specific notification of the socket fan-out switch
(lines 313-323); kinds outside the switch emit nothing. -/
def socketNotif (q : GwQueue) : Option Notif :=
  if q.type = ACTIVITY_RING then some (.ring q.hash q.address q.time)
  else if q.type = ACTIVITY_INBOX then some (.message q.hash q.address q.data q.time)
  else if q.type = ACTIVITY_CUSD then some (.ussd q.hash q.address q.data q.time)
  else none

/-- Socket fan-out (lines 308-329): each registered socket whose group
equals the owning channel group receives the typed notification; the rest
are skipped. -/
def socketNotifs (tgroup : Option String) (sockets : List Socket) (q : GwQueue) :
    List (String × Notif) :=
  sockets.filterMap (fun s =>
    if tgroup = s.group then (socketNotif q).map (fun n => (s.id, n)) else none)

/-- Plugin scope test (line 331):
plugin.group == undefined || term.options.group == plugin.group. -/
def pluginMatch (tgroup : Option String) (p : Plugin) : Bool :=
  decide (p.group = none ∨ p.group = tgroup)

/-- Plugin fan-out (lines 330-337): each matching plugin receives
handle(item) on the item as mutated so far; the JS body then runs
if (GwQueue.veto) return true inside a forEach, whose callback return value
is discarded, so iteration continues either way.  Returns the final item
and the ids of the plugins that received handle, in order. -/
def pluginFanout (tgroup : Option String) (plugins : List Plugin) (q : GwQueue) :
    GwQueue × List String :=
  match plugins with
  | [] => (q, [])
  | p :: rest =>
    if pluginMatch tgroup p then
      let q2 := p.handle q
      let tail := pluginFanout tgroup rest q2
      (tail.1, p.pid :: tail.2)
    else
      pluginFanout tgroup rest q

/-- WHERE clause of Activity.getQueues (lines 206-218): unprocessed rows of
kind Ring, Inbox or CUSD. -/
def activityWhere (q : GwQueue) : Bool :=
  decide (q.processed = 0 ∧
    (q.type = ACTIVITY_RING ∨ q.type = ACTIVITY_INBOX ∨ q.type = ACTIVITY_CUSD))

/-- Outcome of Activity.processQueue on one item: the item as left behind
(updated or untouched), the socket notifications emitted, the plugin ids
that received handle, whether the completion callback ran, and whether the
store row was updated. -/
structure ProcResult where
  item : GwQueue
  notifs : List (String × Notif)
  handled : List String
  doneCalled : Bool
  storeChanged : Bool
deriving Repr

/-- Activity.processQueue (lines 296-348): resolves the owning channel by
imsi; without one it only invokes done.  Ring/Inbox items pass the address
gate; Inbox additionally requires the receiveMessage capability.  An
allowed item is fanned out to sockets and plugins and its row updated to
processed = 1, status = 1; a rejected one is updated to processed = 1,
status = 0 with no fan-out. -/
def processQueue (terminals : List Terminal) (gwclients : List Socket)
    (plugins : List Plugin) (cfg : ActivityConfig) (q : GwQueue) : ProcResult :=
  match terminals.find? (fun t => decide (t.name = q.imsi)) with
  | none => ⟨q, [], [], true, false⟩
  | some term =>
    let p1 : Bool :=
      if q.type = ACTIVITY_RING ∨ q.type = ACTIVITY_INBOX then
        addressAllowed cfg q.address
      else true
    let p2 : Bool :=
      if p1 = true ∧ term.options.receiveMessage = false ∧ q.type = ACTIVITY_INBOX then
        false
      else p1
    if p2 = true then
      let fan := pluginFanout term.options.group plugins q
      ⟨{ fan.1 with processed := 1, status := 1 },
        socketNotifs term.options.group gwclients q, fan.2, true, true⟩
    else
      ⟨{ q with processed := 1, status := 0 }, [], [], true, true⟩

theorem termLe_total (a b : Terminal) : termLe a b = true ∨ termLe b a = true := by
  simp only [termLe, decide_eq_true_eq]
  omega

theorem termLe_trans (a b c : Terminal) :
    termLe a b = true → termLe b c = true → termLe a c = true := by
  simp only [termLe, decide_eq_true_eq]
  omega

theorem selIdx_lt (r : ℚ) (n : Nat) (_h0 : 0 ≤ r) (h1 : r < 1) (hn : 0 < n) :
    selIdx r n < n := by
  have hfl : Rat.floor (r * (n : ℚ)) = ⌊r * (n : ℚ)⌋ := rfl
  have hlt : ⌊r * (n : ℚ)⌋ < (n : ℤ) := by
    rw [Int.floor_lt]
    push_cast
    calc r * (n : ℚ) < 1 * (n : ℚ) := by
          apply mul_lt_mul_of_pos_right h1
          exact_mod_cast hn
      _ = (n : ℚ) := one_mul _
  simp only [selIdx, hfl]
  omega

theorem selIdx_div (i n : Nat) (hn : 0 < n) :
    selIdx ((i : ℚ) / (n : ℚ)) n = i := by
  have hne : (n : ℚ) ≠ 0 := by
    exact_mod_cast hn.ne'
  have hmul : (i : ℚ) / (n : ℚ) * (n : ℚ) = (i : ℚ) := div_mul_cancel₀ _ hne
  have hfl : Rat.floor ((i : ℚ) / (n : ℚ) * (n : ℚ)) = ⌊((i : ℚ))⌋ := by
    rw [hmul]
    rfl
  simp [selIdx, hfl, Int.floor_natCast]

theorem mem_getTerminal (terminals : List Terminal)
    (getOp : String → Option String) (ty : Nat) (address : String)
    (group : Option String) (t : Terminal) :
    t ∈ getTerminal terminals getOp ty address group ↔
      t ∈ terminals ∧ eligible getOp ty address group t = true := by
  simp [getTerminal, List.mem_filter]

/-- C6: Activity.add dispatches only to eligible channels (the chosen
channel is a registered channel passing the eligibility filter, whose
clauses are connected, group match when a group is given, allowCall for
Call, sendMessage for SMS, and resolved operator in a non-empty allow-list
for non-USSD kinds); every eligible channel is chosen for some random draw
in [0, 1) (uniform over the full eligible set); and the indexed list is the
eligible set sorted ascending by priority. -/
theorem terminal_selection (terminals : List Terminal)
    (getOp : String → Option String) (ty : Nat) (address : String)
    (group : Option String) :
    (∀ (r : ℚ) (t : Terminal),
        addChosen terminals getOp ty address group r = some t →
          t ∈ terminals ∧ eligible getOp ty address group t = true) ∧
    (∀ t ∈ getTerminal terminals getOp ty address group,
        ∃ r : ℚ, 0 ≤ r ∧ r < 1 ∧
          addChosen terminals getOp ty address group r = some t) ∧
    (sortByPriority (getTerminal terminals getOp ty address group)).Pairwise
        (fun a b => termLe a b = true) ∧
    (∀ t, eligible getOp ty address group t = true →
        t.connected = true ∧
        (∀ g, group = some g → t.options.group = some g) ∧
        (ty = ACTIVITY_CALL → t.options.allowCall = true) ∧
        (ty = ACTIVITY_SMS → t.options.sendMessage = true) ∧
        (t.options.operators ≠ [] → ty ≠ ACTIVITY_USSD →
          ∃ op, getOp address = some op ∧ op ∈ t.options.operators)) := by
  refine ⟨?_, ?_, ?_, ?_⟩
  · intro r t h
    simp only [addChosen] at h
    by_cases h0 : (getTerminal terminals getOp ty address group).length = 0
    · rw [if_pos h0] at h
      exact Option.noConfusion h
    · rw [if_neg h0] at h
      by_cases h1 : (getTerminal terminals getOp ty address group).length = 1
      · rw [if_pos h1] at h
        exact (mem_getTerminal terminals getOp ty address group t).mp
          (List.getElem?_mem h)
      · rw [if_neg h1] at h
        have ht : t ∈ sortByPriority (getTerminal terminals getOp ty address group) :=
          List.getElem?_mem h
        exact (mem_getTerminal terminals getOp ty address group t).mp
          ((mem_insSort termLe t _).mp ht)
  · intro t ht
    set ts := getTerminal terminals getOp ty address group with hts
    have hne : ts ≠ [] := List.ne_nil_of_mem ht
    have hlen : 0 < ts.length := List.length_pos.mpr hne
    by_cases h1 : ts.length = 1
    · obtain ⟨a, ha⟩ := List.length_eq_one.mp h1
      have hta : t = a := by
        rw [ha] at ht
        simpa using ht
      refine ⟨0, le_refl 0, by norm_num, ?_⟩
      simp only [addChosen, ← hts, h1]
      simp [ha, hta]
    · have hts2 : t ∈ sortByPriority ts := (mem_insSort termLe t ts).mpr ht
      obtain ⟨i, hi⟩ := List.mem_iff_get.mp hts2
      have hilt : (i : Nat) < ts.length := by
        have h2 := i.isLt
        simpa only [sortByPriority, length_insSort] using h2
      refine ⟨(i : ℚ) / (ts.length : ℚ), ?_, ?_, ?_⟩
      · positivity
      · rw [div_lt_one (by exact_mod_cast hlen)]
        exact_mod_cast hilt
      · have hsel : selIdx ((i : ℚ) / (ts.length : ℚ)) ts.length = (i : Nat) :=
          selIdx_div i ts.length hlen
        simp only [addChosen, ← hts, if_neg (by omega : ¬ts.length = 0),
          if_neg h1, hsel]
        rw [List.getElem?_eq_getElem
          (by simpa only [sortByPriority, length_insSort] using hilt)]
        rw [← hi]
        rfl
  · exact pairwise_insSort termLe termLe_total termLe_trans _
  · intro t h
    simp only [eligible] at h
    split_ifs at h with hc hg hcall hsms hop
    · refine ⟨by simpa using hc, ?_, ?_, ?_, ?_⟩
      · intro g hgg
        subst hgg
        push_neg at hg
        exact hg (by simp)
      · intro hty
        rcases Decidable.em (t.options.allowCall = true) with hac | hac
        · exact hac
        · exact absurd ⟨hty, by simpa using hac⟩ hcall
      · intro hty
        rcases Decidable.em (t.options.sendMessage = true) with hac | hac
        · exact hac
        · exact absurd ⟨hty, by simpa using hac⟩ hsms
      · intro hone hnu
        rcases hmatch : getOp address with _ | op
        · rw [hmatch] at h
          exact absurd h (by simp)
        · rw [hmatch] at h
          exact ⟨op, rfl, by simpa using h⟩
    · refine ⟨by simpa using hc, ?_, ?_, ?_, ?_⟩
      · intro g hgg
        subst hgg
        push_neg at hg
        exact hg (by simp)
      · intro hty
        rcases Decidable.em (t.options.allowCall = true) with hac | hac
        · exact hac
        · exact absurd ⟨hty, by simpa using hac⟩ hcall
      · intro hty
        rcases Decidable.em (t.options.sendMessage = true) with hac | hac
        · exact hac
        · exact absurd ⟨hty, by simpa using hac⟩ hsms
      · intro hone hnu
        exact absurd ⟨hone, hnu⟩ hop

/-- Three connected SMS-capable channels with priorities 10, 10, 20 and a
failing operator lookup, for the C6 witness. -/
def wTermA : Terminal :=
  { name := "A", connected := true,
    options := { priority := PRIORITY_ABOVE, group := none, allowCall := true,
                 sendMessage := true, receiveMessage := true, operators := [] } }

def wTermB : Terminal :=
  { name := "B", connected := true,
    options := { priority := PRIORITY_ABOVE, group := none, allowCall := true,
                 sendMessage := true, receiveMessage := true, operators := [] } }

def wTermC : Terminal :=
  { name := "C", connected := true,
    options := { priority := PRIORITY_NORMAL, group := none, allowCall := true,
                 sendMessage := true, receiveMessage := true, operators := [] } }

def wTerms : List Terminal := [wTermC, wTermA, wTermB]

def wOp : String → Option String := fun _ => none

/-- C6 witness: with three eligible channels of priorities [20, 10, 10],
even the highest-priority-value channel is selected for some random draw in
[0, 1). -/
theorem terminal_selection_witness :
    wTermC ∈ getTerminal wTerms wOp ACTIVITY_SMS "08123456" none ∧
    ∃ r : ℚ, 0 ≤ r ∧ r < 1 ∧
      addChosen wTerms wOp ACTIVITY_SMS "08123456" none r = some wTermC := by
  refine ⟨by decide, ?_⟩
  exact (terminal_selection wTerms wOp ACTIVITY_SMS "08123456" none).2.1
    wTermC (by decide)

/-- C7: addressAllowed rejects every non-numeric address, every address of
length at most the (defaulted) premium length, and every blacklisted
address, and allows every other numeric address of sufficient length; and
a Ring or Inbox item whose address is rejected is still updated to
processed = 1 with status = 0 (failed), with no fan-out. -/
theorem address_gate (cfg : ActivityConfig) (address : String) :
    (jsIsNaN address = true → addressAllowed cfg address = false) ∧
    (address.length ≤ effPremiumlen cfg → addressAllowed cfg address = false) ∧
    (address ∈ cfg.blacklists → addressAllowed cfg address = false) ∧
    (jsIsNaN address = false → effPremiumlen cfg < address.length →
      address ∉ cfg.blacklists → addressAllowed cfg address = true) ∧
    (∀ (terminals : List Terminal) (gwclients : List Socket)
        (plugins : List Plugin) (q : GwQueue) (term : Terminal),
      terminals.find? (fun t => decide (t.name = q.imsi)) = some term →
      (q.type = ACTIVITY_RING ∨ q.type = ACTIVITY_INBOX) →
      addressAllowed cfg q.address = false →
      processQueue terminals gwclients plugins cfg q =
        ⟨{ q with processed := 1, status := 0 }, [], [], true, true⟩) := by
  refine ⟨?_, ?_, ?_, ?_, ?_⟩
  · intro h
    unfold addressAllowed
    split_ifs <;> simp_all
  · intro h
    unfold addressAllowed
    split_ifs <;> simp_all
  · intro h
    unfold addressAllowed
    split_ifs <;> simp_all
  · intro h1 h2 h3
    have he : ¬(address = "") := by
      intro he
      rw [he] at h2
      simp at h2
    unfold addressAllowed
    rw [if_neg he, if_neg (by simp [h1]), if_neg (by omega), if_neg h3]
  · intro terminals gwclients plugins q term hfind hty hallow
    rcases hty with hty | hty <;>
      simp [processQueue, hfind, hty, hallow, ACTIVITY_RING, ACTIVITY_INBOX]

/-- Concrete gate configuration: empty-string premium length default (5)
and one blacklisted number. -/
def wCfg : ActivityConfig := { blacklists := ["0812345999"], premiumlen := 0 }

/-- Inbox item whose address fails the gate, owned by channel A. -/
def qRejected : GwQueue :=
  { id := 21, imsi := "A", type := ACTIVITY_INBOX, hash := "hrj", address := "123",
    data := "mi", priority := PRIORITY_NORMAL, processed := 0, status := 0,
    retry := none, time := 100, veto := false }

/-- C7 witness: the gate evaluated on the spec examples, and the
rejected-item update path on a concrete Inbox item. -/
theorem address_gate_witness :
    addressAllowed wCfg "123" = false ∧
    addressAllowed wCfg "notanumber" = false ∧
    addressAllowed wCfg "0812345999" = false ∧
    addressAllowed wCfg "08123456" = true ∧
    processQueue [wTermA] [] [] wCfg qRejected =
      ⟨{ qRejected with processed := 1, status := 0 }, [], [], true, true⟩ := by
  refine ⟨(address_gate wCfg "123").2.1 (by decide),
         (address_gate wCfg "notanumber").1 (by decide),
         (address_gate wCfg "0812345999").2.2.1 (by decide),
         (address_gate wCfg "08123456").2.2.2.1 (by decide) (by decide) (by decide),
         (address_gate wCfg qRejected.address).2.2.2.2 [wTermA] [] [] qRejected
           wTermA (by decide) (by decide) (by decide)⟩

/-- C8: every registered plugin whose group is undefined or equal to the
owning channel group receives handle, in registration order, whatever the
handle functions do to the item (in particular when an earlier plugin sets
the veto flag): the forEach callback return value is discarded, so the
fan-out loop always completes. -/
theorem plugin_fanout_complete (tgroup : Option String) (plugins : List Plugin)
    (q : GwQueue) :
    (pluginFanout tgroup plugins q).2 =
      (plugins.filter (pluginMatch tgroup)).map Plugin.pid := by
  induction plugins generalizing q with
  | nil => rfl
  | cons p rest ih =>
    by_cases h : pluginMatch tgroup p = true
    · simp [pluginFanout, h, List.filter_cons, ih]
    · simp [pluginFanout, h, List.filter_cons, ih]

/-- C9: an item whose imsi matches no registered channel is left entirely
untouched by processQueue — no row update, no notification, no plugin call
— while the completion callback still runs; such an item still satisfies
the Activity snapshot filter and is reselected on every reload. -/
theorem unmatched_channel_frame (terminals : List Terminal)
    (gwclients : List Socket) (plugins : List Plugin) (cfg : ActivityConfig)
    (q : GwQueue) (h : ∀ t ∈ terminals, t.name ≠ q.imsi) :
    processQueue terminals gwclients plugins cfg q = ⟨q, [], [], true, false⟩ ∧
    (activityWhere q = true →
      activityWhere (processQueue terminals gwclients plugins cfg q).item = true) := by
  have hfind : terminals.find? (fun t => decide (t.name = q.imsi)) = none := by
    rw [List.find?_eq_none]
    intro t ht
    simpa using h t ht
  refine ⟨by simp [processQueue, hfind], ?_⟩
  intro ha
  simp [processQueue, hfind, ha]

/-- Ring item recorded against an unregistered channel imsi. -/
def qOrphan : GwQueue :=
  { id := 31, imsi := "ZZ", type := ACTIVITY_RING, hash := "hor", address := "08123499",
    data := "", priority := PRIORITY_NORMAL, processed := 0, status := 0,
    retry := none, time := 100, veto := false }

/-- C9 witness: the frame property evaluated on a concrete orphan item
against a concrete channel registry. -/
theorem unmatched_channel_frame_witness :
    processQueue [wTermA] [] [] wCfg qOrphan = ⟨qOrphan, [], [], true, false⟩ ∧
    activityWhere (processQueue [wTermA] [] [] wCfg qOrphan).item = true := by
  have h := unmatched_channel_frame [wTermA] [] [] wCfg qOrphan (by decide)
  exact ⟨h.1, h.2 (by decide)⟩

end SmsGateway
